import Mathlib

/-- Association list over string keys, modelling a Python dict that preserves
insertion order. -/
abbrev Dict (β : Type) := List (String × β)

/-- Lookup of the first binding of a key, mirroring Python dict access. -/
def alookup {β : Type} (k : String) : Dict β → Option β
  | [] => none
  | (k', v) :: t => if k' = k then some v else alookup k t

/-- Assignment `d[k] = v` on a Python dict: replace the value in place if the
key exists, else append the new binding at the end. -/
def alInsert {β : Type} (k : String) (v : β) : Dict β → Dict β
  | [] => [(k, v)]
  | (k', v') :: t => if k' = k then (k, v) :: t else (k', v') :: alInsert k v t

/-- Removal `del d[k]` on a Python dict: drop the first binding of the key. -/
def alErase {β : Type} (k : String) : Dict β → Dict β
  | [] => []
  | (k', v') :: t => if k' = k then t else (k', v') :: alErase k t

/-- Field map of an upstream order row or of an order aggregate; upstream
delivers every value as a string. -/
abbrev Fields := Dict String

/-- One entry of an order's sub-update list, the record
`{id, type, fields, time}` appended by `API_Order.update`. -/
structure SubUpdate where
  id : String
  type : String
  fields : Fields
  time : Int
deriving DecidableEq, Repr

/-- The `API_Order` aggregate: permanent id `oid`, base field map, ordered
sub-update list, sub-order table keyed by the per-message `ORDER_ID`, and the
optional initial-creation callback (an opaque token). The `updates` list is
kept as its own component; the source stores the same list under the
`updates` key of the field dict when rendering, the only non-string value in
that dict. -/
structure Order where
  oid : String
  fields : Fields
  updates : List SubUpdate
  suborders : Dict Fields
  callback : Option Nat := none
deriving DecidableEq, Repr

/-- Classification of an order update row against the sub-order table,
the `change` variable of `API_Order.update`; `errorRow` is the source's
`change = 'error'` case for a row without `ORDER_ID`. -/
inductive RowChange where
  | new
  | changed
  | dup
  | errorRow
deriving DecidableEq, Repr

/-- The field-merge loop of `API_Order.update`: for each `k, v` of the row,
in row order, set `fields[k] = v` and record in `changes` every binding whose
value differs from the previous one (a missing key reads as `None` via
`setdefault(k, None)`, so it always differs from the string `v`). Returns
the new field map and the `changes` dict. -/
def applyRow (fields : Fields) (data : Fields) : Fields × Fields :=
  data.foldl
    (fun acc kv =>
      let ov := alookup kv.1 acc.1
      let f' := alInsert kv.1 kv.2 acc.1
      if some kv.2 ≠ ov then (f', acc.2 ++ [kv]) else (f', acc.2))
    (fields, [])

/-- Shallow embedding of `API_Order.update` (rtx.py lines 258-298). Returns
the updated order, the row classification, and whether the base field map
changed, which is the source's `json.dumps(self.fields) != field_state`
condition: `json.dumps` is sensitive to dict insertion order, so equality of
the ordered field lists is the exact criterion. That flag is the condition
under which the source calls `api.send_order_status`, the sole emitter of
downstream `order.*` events; `errorRow` additionally reports an error. The
wall clock stamped on an appended sub-update entry is passed in as `now`. -/
def Order.update (o : Order) (data : Fields) (now : Int) : Order × RowChange × Bool :=
  let idc : String × RowChange × Dict Fields :=
    match alookup "ORDER_ID" data with
    | some orderId =>
      let c :=
        match alookup orderId o.suborders with
        | some prev => if data = prev then RowChange.dup else RowChange.changed
        | none => RowChange.new
      (orderId, c, alInsert orderId data o.suborders)
    | none => ("unknown", RowChange.errorRow, o.suborders)
  let orderId := idc.1
  let change := idc.2.1
  let suborders' := idc.2.2
  let fu : Fields × List SubUpdate :=
    if change = RowChange.new ∨ change = RowChange.changed then
      let fc := applyRow o.fields data
      if fc.2 ≠ [] ∧ orderId ≠ o.oid then
        (fc.1, o.updates ++ [{ id := orderId,
                               type := (alookup "TYPE" fc.2).getD "Undefined",
                               fields := fc.2, time := now }])
      else (fc.1, o.updates)
    else (o.fields, o.updates)
  let emitted := fu.1 ≠ o.fields
  ({ o with fields := fu.1, updates := fu.2, suborders := suborders' }, change, emitted)

/-- The pattern `if src in fields: fields[dst] = fields[src]`. -/
def copyField (src dst : String) (f : Fields) : Fields :=
  match alookup src f with
  | some v => alInsert dst v f
  | none => f

/-- Embedding of `API_Order.update_fill_fields`: when `TYPE` is
`UserSubmitOrder` or `ExchangeTradeOrder`, copy `VOLUME_TRADED`,
`ORDER_RESIDUAL` and `AVG_PRICE` into the derived keys `filled`, `remaining`
and `avgfillprice` when present. -/
def update_fill_fields (f : Fields) : Fields :=
  if alookup "TYPE" f = some "UserSubmitOrder" ∨ alookup "TYPE" f = some "ExchangeTradeOrder" then
    copyField "AVG_PRICE" "avgfillprice"
      (copyField "ORDER_RESIDUAL" "remaining" (copyField "VOLUME_TRADED" "filled" f))
  else f

/-- Embedding of `API_Order.has_fill_type`: the base `TYPE` is
`ExchangeTradeOrder` or some recorded sub-update has that type. -/
def has_fill_type (f : Fields) (updates : List SubUpdate) : Bool :=
  alookup "TYPE" f = some "ExchangeTradeOrder" ||
    updates.any (fun u => u.type = "ExchangeTradeOrder")

/-- Embedding of `API_Order.is_filled`: `CURRENT_STATUS` is `COMPLETED`,
a fill-type record exists, and `ORIGINAL_VOLUME` and `VOLUME_TRADED` are both
present and equal. -/
def is_filled (f : Fields) (updates : List SubUpdate) : Bool :=
  alookup "CURRENT_STATUS" f = some "COMPLETED" &&
    has_fill_type f updates &&
    (match alookup "ORIGINAL_VOLUME" f, alookup "VOLUME_TRADED" f with
     | some a, some b => a = b
     | _, _ => false)

/-- Embedding of `RTX.make_account`: compose `BANK.BRANCH.CUSTOMER.DEPOSIT`;
`none` models the KeyError the source raises when a component is missing. -/
def make_account (f : Fields) : Option String := do
  let b ← alookup "BANK" f
  let br ← alookup "BRANCH" f
  let c ← alookup "CUSTOMER" f
  let d ← alookup "DEPOSIT" f
  pure (b ++ "." ++ br ++ "." ++ c ++ "." ++ d)

/-- Python `dict.setdefault(k, v)`: return the map (extended by `k -> v` when
the key was absent) together with the value now bound to `k`. -/
def setdefaultF (k v : String) (f : Fields) : Fields × String :=
  match alookup k f with
  | some w => (f, w)
  | none => (f ++ [(k, v)], v)

/-- Shallow embedding of `API_Order.render` (rtx.py lines 310-355). Returns
the mutated field map together with the list of error reports issued through
`api.error_handler`, or `none` for the KeyError the source raises when
`ORIGINAL_ORDER_ID`, `DISP_NAME` or an account component is missing. The
source finally stores the sub-update list under the `updates` key; that list
is the unchanged `o.updates` component here. -/
def render (o : Order) : Option (Fields × List String) :=
  match alookup "ORIGINAL_ORDER_ID" o.fields with
  | none => none
  | some pid =>
    match alookup "DISP_NAME" (alInsert "permid" pid o.fields) with
    | none => none
    | some sym =>
      match make_account (alInsert "symbol" sym (alInsert "permid" pid o.fields)) with
      | none => none
      | some acct =>
        let f3 := alInsert "account" acct (alInsert "symbol" sym (alInsert "permid" pid o.fields))
        let sd1 := setdefaultF "CURRENT_STATUS" "UNDEFINED" f3
        let status := sd1.2
        let sd2 := setdefaultF "TYPE" "Undefined" sd1.1
        let f := sd2.1
        let otype := sd2.2
        if status = "PENDING" then
          some (alInsert "status" "Submitted" f, [])
        else if status = "LIVE" then
          some (update_fill_fields (alInsert "status" "Pending" f), [])
        else if status = "COMPLETED" then
          if is_filled f o.updates then
            some (if otype = "ExchangeTradeOrder" then
                    update_fill_fields (alInsert "status" "Filled" f)
                  else alInsert "status" "Filled" f, [])
          else if otype = "UserSubmitOrder" ∨ otype = "UserSubmitStagedOrder" ∨
              otype = "UserSubmitStatus" ∨ otype = "ExchangeReportStatus" then
            some (update_fill_fields (alInsert "status" "Submitted" f), [])
          else if otype = "UserSubmitCancel" then
            some (alInsert "status" "Cancelled" f, [])
          else if otype = "UserSubmitChange" then
            some (alInsert "status" "Changed" f, [])
          else if otype = "ExchangeAcceptOrder" then
            some (alInsert "status" "Accepted" f, [])
          else if otype = "ExchangeTradeOrder" then
            some (update_fill_fields f, [])
          else if otype = "ClerkReject" ∨ otype = "ExchangeKillOrder" then
            some (alInsert "status" "Error" f, [])
          else
            some (alInsert "status" "Error" f, ["Unknown TYPE: " ++ otype])
        else if status = "CANCELLED" then
          some (alInsert "status" "Cancelled" f, [])
        else if status = "DELETED" then
          some (alInsert "status" "Error" f, [])
        else
          some (alInsert "status" "Error" f, ["Unknown CURRENT_STATUS: " ++ status])

/-- Modelled from the claim wording: the effective `CURRENT_STATUS` of an
order, a missing field reading as the `UNDEFINED` default that render
installs. -/
def effCurrentStatus (o : Order) : String :=
  (alookup "CURRENT_STATUS" o.fields).getD "UNDEFINED"

/-- Modelled from the claim wording: the effective `TYPE` of an order, a
missing field reading as the `Undefined` default that render installs. -/
def effType (o : Order) : String :=
  (alookup "TYPE" o.fields).getD "Undefined"

/-- Modelled from the claim wording: fully filled holds iff
`CURRENT_STATUS = COMPLETED`, the order has a fill-type sub-update
(`TYPE = ExchangeTradeOrder` on the base fields or among the recorded
updates), and `ORIGINAL_VOLUME` equals `VOLUME_TRADED`. -/
def claimFullyFilled (o : Order) : Bool :=
  effCurrentStatus o = "COMPLETED" &&
    (effType o = "ExchangeTradeOrder" ||
      o.updates.any (fun u => u.type = "ExchangeTradeOrder")) &&
    (match alookup "ORIGINAL_VOLUME" o.fields, alookup "VOLUME_TRADED" o.fields with
     | some a, some b => a = b
     | _, _ => false)

/-- The `TYPE` values recognised by the `CURRENT_STATUS = COMPLETED` branch
of the status table. -/
def knownCompletedType (t : String) : Bool :=
  t = "UserSubmitOrder" || t = "UserSubmitStagedOrder" || t = "UserSubmitStatus" ||
    t = "ExchangeReportStatus" || t = "UserSubmitCancel" || t = "UserSubmitChange" ||
    t = "ExchangeAcceptOrder" || t = "ExchangeTradeOrder" || t = "ClerkReject" ||
    t = "ExchangeKillOrder"

/-- The `CURRENT_STATUS` values recognised by the status table. -/
def knownCurrentStatus (s : String) : Bool :=
  s = "PENDING" || s = "LIVE" || s = "COMPLETED" || s = "CANCELLED" || s = "DELETED"

/-- Modelled from the claim wording: the derived `status` field as a function
of `CURRENT_STATUS` and `TYPE` alone (plus the fill information). The
`ExchangeTradeOrder`-at-`COMPLETED`-not-filled case makes no status change,
so the previous `status` binding (possibly absent) is the result there. -/
def claimStatus (o : Order) : Option String :=
  let s := effCurrentStatus o
  let t := effType o
  if s = "PENDING" then some "Submitted"
  else if s = "LIVE" then some "Pending"
  else if s = "COMPLETED" then
    if claimFullyFilled o then some "Filled"
    else if t = "UserSubmitOrder" ∨ t = "UserSubmitStagedOrder" ∨
        t = "UserSubmitStatus" ∨ t = "ExchangeReportStatus" then some "Submitted"
    else if t = "UserSubmitCancel" then some "Cancelled"
    else if t = "UserSubmitChange" then some "Changed"
    else if t = "ExchangeAcceptOrder" then some "Accepted"
    else if t = "ExchangeTradeOrder" then alookup "status" o.fields
    else some "Error"
  else if s = "CANCELLED" then some "Cancelled"
  else if s = "DELETED" then some "Error"
  else some "Error"

/-- The condition under which render reports an error while deriving the
status: an unrecognised `TYPE` at `CURRENT_STATUS = COMPLETED` (outside the
fully-filled case) or an unrecognised `CURRENT_STATUS`. -/
def claimErrorReported (o : Order) : Bool :=
  (effCurrentStatus o = "COMPLETED" && !claimFullyFilled o &&
    !knownCompletedType (effType o)) ||
  !knownCurrentStatus (effCurrentStatus o)

/-- State of an `API_Callback` (rtx.py lines 377-419). Wall-clock times are
modelled as integer ticks. `isSendString` captures the source's
`callable.callback.__name__ == 'sendString'` test distinguishing downstream
line-protocol continuations; `hasCallable` records whether the continuation
is still attached (`self.callable = None` after a successful completion). -/
structure CB where
  id : String
  label : String
  started : Int
  timeout : Int
  expire : Int
  isSendString : Bool
  hasCallable : Bool
  done : Bool
  expired : Bool
deriving DecidableEq, Repr

/-- Embedding of `API_Callback.__init__`: the stored `timeout` attribute is
`timeout or api.callback_timeout['DEFAULT']`, so a 0 argument (Python falsy)
falls back to the configured default, while the deadline `expire` is
`started + timeout` computed from the raw argument. -/
def CB.init (id label : String) (timeoutArg defTimeout started : Int)
    (isSendString : Bool) : CB :=
  { id := id, label := label, started := started,
    timeout := if timeoutArg ≠ 0 then timeoutArg else defTimeout,
    expire := started + timeoutArg,
    isSendString := isSendString, hasCallable := true,
    done := false, expired := false }

/-- The callback allocated by `RTX.set_account` (rtx.py line 990):
`API_Callback(self, account_name, 'set-account', callback)` leaves the
timeout argument at its 0 default. -/
def set_account_callback (account_name : String) (defTimeout started : Int)
    (isSendString : Bool) : CB :=
  CB.init account_name "set-account" 0 defTimeout started isSendString

/-- Observable effects of callback completion and expiry. -/
inductive CBEvent where
  | fire (label : String)
  | fireError (label : String)
  | lateArrival (label : String)
  | expireBroadcast (label : String)
  | metrics (label : String) (elapsed : Int) (expired : Bool)
deriving DecidableEq, Repr

/-- Shallow embedding of `API_Callback.complete` (rtx.py lines 392-406):
invoke the continuation and set `done` when not yet done; otherwise report a
post-timeout arrival and do not invoke it. Metrics are recorded either way.
The middle component is true iff the continuation was invoked. -/
def CB.complete (cb : CB) (now : Int) : CB × Bool × List CBEvent :=
  let elapsed := now - cb.started
  if cb.done then
    (cb, false,
     [CBEvent.lateArrival cb.label, CBEvent.metrics cb.label elapsed cb.expired])
  else
    ({ cb with done := true, hasCallable := false }, true,
     [CBEvent.fire cb.label, CBEvent.metrics cb.label elapsed cb.expired])

/-- Shallow embedding of `API_Callback.check_expire` (rtx.py lines 408-419):
when not done and strictly past the deadline, broadcast the expiry, fail the
continuation (the sendString or errback variant), and mark the callback done
and expired. The middle component is true iff a continuation was invoked. -/
def CB.check_expire (cb : CB) (now : Int) : CB × Bool × List CBEvent :=
  if cb.done then (cb, false, [])
  else if now > cb.expire then
    ({ cb with expired := true, done := true }, true,
     [CBEvent.expireBroadcast cb.label, CBEvent.fireError cb.label])
  else (cb, false, [])

/-- An operation applied to a callback: an arriving completion or an expiry
sweep, each at a wall-clock instant. -/
inductive CBOp where
  | completeAt (now : Int)
  | checkAt (now : Int)
deriving DecidableEq, Repr

/-- One operation step on a callback, keeping the fired flag. -/
def cbStep (cb : CB) : CBOp → CB × Bool
  | CBOp.completeAt now => let r := cb.complete now; (r.1, r.2.1)
  | CBOp.checkAt now => let r := cb.check_expire now; (r.1, r.2.1)

/-- Number of continuation invocations over a sequence of completion and
expiry operations. -/
def fireCount (cb : CB) : List CBOp → Nat
  | [] => 0
  | op :: ops =>
    let r := cbStep cb op
    (if r.2 then 1 else 0) + fireCount r.1 ops

/-- Substring occurrence over character lists. -/
def subListAt (n : List Char) : List Char → Bool
  | [] => n.isPrefixOf []
  | c :: t => n.isPrefixOf (c :: t) || subListAt n t

/-- Python `needle in haystack` substring test, used by `send` for
`'request' in cmd`. -/
def pyContains (needle hay : String) : Bool := subListAt needle.toList hay.toList

/-- Python `str.split(sep)` for a one-character separator, over character
lists. -/
def splitChar (sep : Char) : List Char → List (List Char)
  | [] => [[]]
  | c :: t =>
    let r := splitChar sep t
    if c = sep then [] :: r
    else match r with
      | h :: t' => (c :: h) :: t'
      | [] => [[c]]

/-- Python `account.split('.')`. -/
def pySplitDot (s : String) : List String := (splitChar (Char.ofNat 46) s.toList).map String.mk

/-- ASCII lower-casing of one character, enough for the upstream field
values Python `str.lower()` is applied to. -/
def pyLowerChar (c : Char) : Char :=
  if 65 ≤ c.toNat ∧ c.toNat ≤ 90 then Char.ofNat (c.toNat + 32) else c

/-- Argument tuple of `RTX_Connection.send`, the payload stored whole in
`on_connect_action` for a pre-connect send. Callbacks and the advise handler
are opaque tokens. -/
structure SendArgs where
  cmd : String
  args : String
  ex_ack : Option String := none
  cb_ack : Option Nat := none
  ex_response : Bool := false
  cb_response : Option Nat := none
  ex_status : Option String := none
  cb_status : Option Nat := none
  cb_update : Option Nat := none
  update_handler : Option Nat := none
deriving DecidableEq, Repr

/-- Observable effects of channel processing. -/
inductive CxnEvent where
  | gateway (msg : String)
  | alert (id msg : String)
  | cbComplete (tok : Nat)
  | cbCompleteNone (tok : Nat)
  | handlerNull (tok : Nat)
  | note (msg : String)
deriving DecidableEq, Repr

/-- State of an `RTX_Connection` (rtx.py lines 482-505). A fresh channel has
`ack_pending = CONNECTION PENDING`, `status_pending = OnInitAck`, is not
connected, holds no deferred action, and is therefore not ready. -/
structure Cxn where
  id : String
  service : String
  topic : String
  cmd : String := ""
  ack_pending : Option String
  ack_callback : Option Nat
  response_pending : Bool
  response_callback : Option Nat
  response_rows : Option (List Fields)
  status_pending : Option String
  status_callback : Option Nat
  update_callback : Option Nat
  update_handler : Option Nat
  connected : Bool
  ready : Bool
  on_connect_action : Option SendArgs
deriving DecidableEq, Repr

/-- Embedding of `RTX_Connection.update_ready`: readiness is recomputed from
the pending expectation and callback slots (a ready channel is then returned
to the idle pool, an action outside this state). -/
def Cxn.update_ready (c : Cxn) : Cxn :=
  { c with ready := c.ack_pending.isNone && !c.response_pending &&
      c.status_pending.isNone && c.status_callback.isNone &&
      c.update_callback.isNone && c.update_handler.isNone }

/-- Shallow embedding of `RTX_Connection.send` (rtx.py lines 642-664). When
ready, emit the command upstream and install the expectation slots; the
Python return value is then `None` (the result of `gateway_send`), modelled
as `none`. When not ready, either store the whole argument tuple as the
deferred `on_connect_action` and return `True`, or, when one is already
stored, report an error and return `False` without overwriting it. -/
def Cxn.send (c : Cxn) (a : SendArgs) : Cxn × Option Bool × List CxnEvent :=
  if c.ready then
    let c1 := { c with cmd := a.cmd }
    let c2 := if pyContains "request" a.cmd then { c1 with response_rows := some [] } else c1
    ({ c2 with ack_pending := a.ex_ack, ack_callback := a.cb_ack,
               response_pending := a.ex_response, response_callback := a.cb_response,
               status_pending := a.ex_status, status_callback := a.cb_status,
               update_callback := a.cb_update, update_handler := a.update_handler },
     none,
     [CxnEvent.gateway (a.cmd ++ " " ++ c.id ++ " " ++ a.args)])
  else
    match c.on_connect_action with
    | some act =>
      (c, some false,
       [CxnEvent.alert c.id ("Failure: on_connect_action already exists: " ++ act.cmd)])
    | none =>
      ({ c with on_connect_action := some a }, some true,
       [CxnEvent.note ("storing on_connect_action (" ++ a.cmd ++ ")")])

/-- Shallow embedding of `RTX_Connection.handle_status` (rtx.py lines
566-598) on a status frame with fields `msg` and `status`. On the matching
expected message: clear `status_pending` unless an advise is active; on
status `1` with `msg = OnInitAck` set `connected`, and when a deferred
action is stored force `ready`, replay it through `send` and clear it; then
complete the (possibly just-installed) status callback. A non-`1` status or
an unexpected message is an error; an unexpected `OnTerminate` during an
advise additionally invokes the update handler with null and fails the
response callback with `None` (which `handle_response_failure` does without
clearing the slot). -/
def Cxn.handle_status (c : Cxn) (msg status : String) : Cxn × List CxnEvent :=
  if c.status_pending = some msg then
    let c1 := if c.update_handler = none then { c with status_pending := none } else c
    if status = "1" then
      let step2 : Cxn × List CxnEvent :=
        if msg = "OnInitAck" then
          let c2 := { c1 with connected := true }
          match c2.on_connect_action with
          | some act =>
            let c3 := { c2 with ready := true }
            let s := c3.send act
            ({ s.1 with on_connect_action := none },
             CxnEvent.note ("sending on_connect_action: " ++ act.cmd) :: s.2.2)
          | none => (c2, [])
        else (c1, [])
      match step2.1.status_callback with
      | some tok =>
        ({ step2.1 with status_callback := none }, step2.2 ++ [CxnEvent.cbComplete tok])
      | none => step2
    else (c1, [CxnEvent.alert c.id ("Status Error: " ++ msg ++ " " ++ status)])
  else
    let evs1 := [CxnEvent.alert c.id ("Status Unexpected: " ++ msg)]
    let evs2 := match c.update_handler with
      | some h => if msg = "OnTerminate" then evs1 ++ [CxnEvent.handlerNull h] else evs1
      | none => evs1
    let evs3 := match c.response_callback with
      | some tok => evs2 ++ [CxnEvent.cbCompleteNone tok]
      | none => evs2
    (c, evs3)

/-- Arrival of a status frame through `RTX_Connection.receive`: dispatch to
`handle_status`, then recompute readiness. -/
def Cxn.receiveStatus (c : Cxn) (msg status : String) : Cxn × List CxnEvent :=
  let r := c.handle_status msg status
  (r.1.update_ready, r.2)

/-- A value stored in the ordered field map a submission builds: the source
dict holds strings, ints, floats (modelled as exact decimals in hundredths),
and raw route-parameter dicts. -/
inductive PVal where
  | s (v : String)
  | i (n : Int)
  | f (hundredths : Int)
  | d (kv : Dict String)
deriving DecidableEq, Repr

/-- A route parameter value from the `order_route` configuration: a plain
string or a dict (the `STRAT_PARAMETERS` / `STRAT_REDUNDANT_DATA` shape). -/
inductive RVal where
  | s (v : String)
  | d (kv : Dict String)
deriving DecidableEq, Repr

/-- The `k\x1Fv\x01` joined encoding of a strategy parameter dict applied by
`submit_order` to the two `STRAT_` keys. -/
def encodeStrat (kv : Dict String) : String :=
  kv.foldl
    (fun acc p => acc ++ p.1 ++ String.mk [Char.ofNat 31] ++ p.2 ++ String.mk [Char.ofNat 1])
    ""

/-- Result of `RTX.submit_order`: an immediate synchronous error completion
on validation failure, the exception raised for an unrecognised order type
(or a malformed account string), or the submitted ordered field map, which
the source serializes as `k=v,...` and pokes upstream on the
`ACCOUNT_GATEWAY;ORDER` channel for every accepted order type alike. -/
inductive SubmitResult where
  | rejected (payload : Dict String)
  | raised (msg : String)
  | submitted (fields : Dict PVal)
deriving DecidableEq, Repr

/-- The source line 1227 reads `elif type=='stoplimit':` where `type` is the
Python builtin class, not the `order_type` argument; a class object never
equals a string, so the test is constantly false whatever string it is
compared with. -/
def pyTypeBuiltinEqString (_ : String) : Bool := false

/-- Shallow embedding of `RTX.submit_order` (rtx.py lines 1179-1268).
`accounts` is the known-accounts list; `routeName, routeParams` are the
single entry of the already-resolved `order_route` mapping (the claims
presuppose a valid route, so the `set_order_route` parsing of lines
1185-1188 is taken as successfully done); `new_oid` stands for the uuid
`create_order_id` would draw. The construction of the submitted field map is
modelled up to the point where the source registers callbacks and pokes the
serialized map upstream, a path common to all accepted order types. -/
def submit_order (accounts : List String) (account : String)
    (routeName : String) (routeParams : Option (Dict RVal))
    (order_type : String) (price stop_price : Int) (symbol : String)
    (quantity : Int) (primary_exchange_map : Dict String)
    (staged : Option String) (oid : Option String) (new_oid : String) :
    SubmitResult :=
  if account ∉ accounts then
    SubmitResult.rejected [("status", "Error"), ("errorMsg", "account unknown")]
  else
    let parts := pySplitDot account
    if parts.length < 4 then SubmitResult.raised "ValueError: account unpack"
    else
      let o : Dict PVal := []
      let o := alInsert "BANK" (PVal.s (parts.getD 0 "")) o
      let o := alInsert "BRANCH" (PVal.s (parts.getD 1 "")) o
      let o := alInsert "CUSTOMER" (PVal.s (parts.getD 2 "")) o
      let o := alInsert "DEPOSIT" (PVal.s (parts.getD 3 "")) o
      let o := alInsert "BUYORSELL" (PVal.s (if quantity > 0 then "Buy" else "Sell")) o
      let o := alInsert "GOOD_UNTIL" (PVal.s "DAY") o
      let o := alInsert "EXIT_VEHICLE" (PVal.s routeName) o
      let o := match routeParams with
        | some ps =>
          ps.foldl
            (fun acc p =>
              let v : PVal :=
                if p.1 = "STRAT_PARAMETERS" ∨ p.1 = "STRAT_REDUNDANT_DATA" then
                  PVal.s (match p.2 with
                    | RVal.d kv => encodeStrat kv
                    | RVal.s sv => sv)
                else match p.2 with
                  | RVal.d kv => PVal.d kv
                  | RVal.s sv => PVal.s sv
              alInsert p.1 v acc)
            o
        | none => o
      let o := alInsert "DISP_NAME" (PVal.s symbol) o
      let o := alInsert "STYP" (PVal.i 1) o
      let o := alInsert "EXCHANGE"
        (PVal.s ((alookup symbol primary_exchange_map).getD "NYS")) o
      let priced : Option (Dict PVal) :=
        if order_type = "market" then
          some (alInsert "PRICE_TYPE" (PVal.s "Market") o)
        else if order_type = "limit" then
          some (alInsert "PRICE" (PVal.f price) (alInsert "PRICE_TYPE" (PVal.s "AsEntered") o))
        else if order_type = "stop" then
          some (alInsert "STOP_PRICE" (PVal.f stop_price) (alInsert "PRICE_TYPE" (PVal.s "Stop") o))
        else if pyTypeBuiltinEqString "stoplimit" then
          some (alInsert "PRICE" (PVal.f price) (alInsert "STOP_PRICE" (PVal.f stop_price)
            (alInsert "PRICE_TYPE" (PVal.s "StopLimit") o)))
        else none
      match priced with
      | none => SubmitResult.raised ("unknown order type: " ++ order_type)
      | some o =>
        let o := alInsert "VOLUME_TYPE" (PVal.s "AsEntered") o
        let o := alInsert "VOLUME" (PVal.i (Int.ofNat quantity.natAbs)) o
        let tagged : Dict PVal × String := match staged with
          | some tag => (alInsert "ORDER_TAG" (PVal.s tag) o, "Staged")
          | none => (o, "")
        let keyed : Dict PVal × String := match oid with
          | some x => (alInsert "REFERS_TO_ID" (PVal.s x) tagged.1, "Change")
          | none => (alInsert "CLIENT_ORDER_ID" (PVal.s new_oid) tagged.1, "Order")
        SubmitResult.submitted
          (alInsert "TYPE" (PVal.s ("UserSubmit" ++ tagged.2 ++ keyed.2)) keyed.1)

/-- The field map of a `SubmitResult`, when the submission was accepted. -/
def SubmitResult.fields? : SubmitResult → Option (Dict PVal)
  | SubmitResult.submitted f => some f
  | _ => none

/-- Result of `RTX.cancel_order`: a synchronous callback completion with a
synthetic payload, the `UserSubmitCancel` poke sent upstream with the
serialized fields, or the KeyError raised when the order has no `status`
binding yet. -/
inductive CancelResult where
  | immediate (payload : Dict String)
  | upstream (fields : String)
  | keyError
deriving DecidableEq, Repr

/-- Shallow embedding of `RTX.cancel_order` (rtx.py lines 1278-1296), keyed
on the in-memory order book: an unknown id completes immediately with the
`Order not found` payload; a known order whose `status` field equals the
string `Canceled` completes immediately with the `Already canceled.`
payload; any other known order has `TYPE=UserSubmitCancel,REFERS_TO_ID=oid`
poked upstream. -/
def cancel_order (orders : Dict Order) (oid : String) : CancelResult :=
  match alookup oid orders with
  | some o =>
    (match alookup "status" o.fields with
     | some st =>
       if st = "Canceled" then
         CancelResult.immediate
           [("status", "Error"), ("errorMsg", "Already canceled."), ("id", oid)]
       else
         CancelResult.upstream ("TYPE=UserSubmitCancel,REFERS_TO_ID=" ++ oid)
     | none => CancelResult.keyError)
  | none =>
    CancelResult.immediate
      [("status", "Error"), ("errorMsg", "Order not found"), ("id", oid)]

/-- Numeric value of a decimal-digit character list. -/
def digitsVal (cs : List Char) : Int :=
  cs.foldl (fun a c => a * 10 + Int.ofNat (c.toNat - 48)) 0

/-- Exact reading of an upstream decimal string in hundredths. The source
parses with Python `float` and applies `round(x, 2)`; quote fields carry at
most two decimals, on which that rounding is the identity, so floats are
modelled as exact hundredths (quote values are non-negative). -/
def parseCents (s : String) : Int :=
  let cs := s.toList
  let intPart := cs.takeWhile (fun c => c ≠ '.')
  let fracPart := ((cs.dropWhile (fun c => c ≠ '.')).drop 1).take 2
  digitsVal intPart * 100 + digitsVal fracPart * (if fracPart.length = 1 then 10 else 1)

/-- Python `str()` of a float holding an exact two-decimal value: a whole
number prints as `10.0` (never `10.00`) and a trailing zero of the
hundredths is dropped, per the shortest-repr rule. -/
def pyFloatStr (cents : Int) : String :=
  let ip := cents / 100
  let fr := cents % 100
  if fr = 0 then toString ip ++ ".0"
  else if fr % 10 = 0 then toString ip ++ "." ++ toString (fr / 10)
  else if fr < 10 then toString ip ++ ".0" ++ toString fr
  else toString ip ++ "." ++ toString fr

/-- Embedding of `RTX.parse_tql_field`: a value beginning case-insensitively
with `error ` is a typed error sentinel, reported through `error_handler`
and read as `None`; anything else passes through. The flag records whether a
parse failure was reported. -/
def parse_tql_field (data : String) : Option String × Bool :=
  if "error ".toList.isPrefixOf (data.toList.map pyLowerChar) then (none, true)
  else (some data, false)

/-- Embedding of `RTX.parse_tql_float` over the exact-decimal model: the
falsy results (error sentinel, empty string) give 0.0. -/
def parse_tql_float (data : String) : Int × Bool :=
  let r := parse_tql_field data
  (match r.1 with
   | some s => if s = "" then 0 else parseCents s
   | none => 0, r.2)

/-- Embedding of `RTX.parse_tql_int`: the falsy results give 0. -/
def parse_tql_int (data : String) : Int × Bool :=
  let r := parse_tql_field data
  (match r.1 with
   | some s => if s = "" then 0 else digitsVal s.toList
   | none => 0, r.2)

/-- Embedding of `RTX.parse_tql_str`: the falsy results give the empty
string. -/
def parse_tql_str (data : String) : String × Bool :=
  let r := parse_tql_field data
  (r.1.getD "", r.2)

/-- State of an `API_Symbol` (rtx.py lines 91-241). `bid_size` and
`ask_size` are the attributes initialised by `__init__` and read by
`update_quote` and `export`; `bidsize` and `asksize` are the distinct
attributes `parse_fields` assigns, absent (`none`) until a quote tick
arrives. -/
structure TSym where
  symbol : String
  fullname : String := ""
  bid : Int := 0
  bid_size : Int := 0
  ask : Int := 0
  ask_size : Int := 0
  last : Int := 0
  size : Int := 0
  volume : Int := 0
  close : Int := 0
  vwap : Int := 0
  high : Int := 0
  low : Int := 0
  last_quote : String := ""
  bidsize : Option Int := none
  asksize : Option Int := none
deriving DecidableEq, Repr

/-- Embedding of `API_Symbol.update_quote` (rtx.py lines 160-165): format
`quote.<sym>:<bid> <bid_size> <ask> <ask_size>` from the attributes
`bid, bid_size, ask, ask_size` and broadcast it only when it differs from
the last emitted quote string. -/
def TSym.update_quote (s : TSym) : TSym × List String :=
  let q := "quote." ++ s.symbol ++ ":" ++ pyFloatStr s.bid ++ " " ++ toString s.bid_size ++
           " " ++ pyFloatStr s.ask ++ " " ++ toString s.ask_size
  if q ≠ s.last_quote then ({ s with last_quote := q }, [q]) else (s, [])

/-- Embedding of `API_Symbol.update_trade`: broadcast
`trade.<sym>:<last> <size> <volume>` unconditionally. -/
def TSym.update_trade (s : TSym) : List String :=
  ["trade." ++ s.symbol ++ ":" ++ pyFloatStr s.last ++ " " ++ toString s.size ++
    " " ++ toString s.volume]

/-- Shallow embedding of `API_Symbol.parse_fields` (rtx.py lines 188-237) on
one advise tick. `none` data signals advise termination; the final flag
records the `force_disconnect` the source then issues. Returns the new
symbol state and the strings broadcast to all clients (parse-failure alerts,
then the deduplicated quote, then the trade tick). -/
def TSym.parse_fields (enable_ticker : Bool) (s : TSym) (data : Option Fields) :
    TSym × List String × Bool :=
  match data with
  | none => (s, [], true)
  | some d =>
    let al := fun (reported : Bool) (key : String) =>
      if reported then ["Field Parse Failure: " ++ key] else []
    let st0 : TSym × Bool × Bool × List String := (s, false, false, [])
    let st1 := match alookup "TRDPRC_1" d with
      | some v =>
        let p := parse_tql_float v
        ({ st0.1 with last := p.1 }, true, st0.2.2.1, st0.2.2.2 ++ al p.2 "TRDPRC_1")
      | none => st0
    let st2 := match alookup "HIGH_1" d with
      | some v =>
        let p := parse_tql_float v
        ({ st1.1 with high := p.1 }, true, st1.2.2.1, st1.2.2.2 ++ al p.2 "HIGH_1")
      | none => st1
    let st3 := match alookup "LOW_1" d with
      | some v =>
        let p := parse_tql_float v
        ({ st2.1 with low := p.1 }, true, st2.2.2.1, st2.2.2.2 ++ al p.2 "LOW_1")
      | none => st2
    let st4 := match alookup "TRDVOL_1" d with
      | some v =>
        let p := parse_tql_int v
        ({ st3.1 with size := p.1 }, true, st3.2.2.1, st3.2.2.2 ++ al p.2 "TRDVOL_1")
      | none => st3
    let st5 := match alookup "ACVOL_1" d with
      | some v =>
        let p := parse_tql_int v
        ({ st4.1 with volume := p.1 }, true, st4.2.2.1, st4.2.2.2 ++ al p.2 "ACVOL_1")
      | none => st4
    let st6 := match alookup "BID" d with
      | some v =>
        let p := parse_tql_float v
        let sB := { st5.1 with bid := p.1 }
        let alB := st5.2.2.2 ++ al p.2 "BID"
        if sB.bid ≠ 0 ∧ (alookup "BIDSIZE" d).isSome then
          let p2 := parse_tql_int ((alookup "BIDSIZE" d).getD "")
          ({ sB with bidsize := some p2.1 }, st5.2.1, true, alB ++ al p2.2 "BIDSIZE")
        else
          ({ sB with bidsize := some 0 }, st5.2.1, true, alB)
      | none => st5
    let st7 := match alookup "ASK" d with
      | some v =>
        let p := parse_tql_float v
        let sA := { st6.1 with ask := p.1 }
        let alA := st6.2.2.2 ++ al p.2 "ASK"
        if sA.ask ≠ 0 ∧ (alookup "ASKSIZE" d).isSome then
          let p2 := parse_tql_int ((alookup "ASKSIZE" d).getD "")
          ({ sA with asksize := some p2.1 }, st6.2.1, true, alA ++ al p2.2 "ASKSIZE")
        else
          ({ sA with asksize := some 0 }, st6.2.1, true, alA)
      | none => st6
    let st8 := match alookup "COMPANY_NAME" d with
      | some v =>
        let p := parse_tql_str v
        ({ st7.1 with fullname := p.1 }, st7.2.1, st7.2.2.1, st7.2.2.2 ++ al p.2 "COMPANY_NAME")
      | none => st7
    let st9 := match alookup "HST_CLOSE" d with
      | some v =>
        let p := parse_tql_float v
        ({ st8.1 with close := p.1 }, st8.2.1, st8.2.2.1, st8.2.2.2 ++ al p.2 "HST_CLOSE")
      | none => st8
    let stA := match alookup "VWAP" d with
      | some v =>
        let p := parse_tql_float v
        ({ st9.1 with vwap := p.1 }, st9.2.1, st9.2.2.1, st9.2.2.2 ++ al p.2 "VWAP")
      | none => st9
    let trade_flag := stA.2.1
    let quote_flag := stA.2.2.1
    let alerts := stA.2.2.2
    if enable_ticker then
      let q := if quote_flag then stA.1.update_quote else (stA.1, [])
      let t := if trade_flag then q.1.update_trade else []
      (q.1, alerts ++ q.2 ++ t, false)
    else
      (stA.1, alerts, false)

/-- Observable effects of the order-response path. -/
inductive BEvent where
  | wire (msg : String)
  | alert (id msg : String)
  | complete (result : Option Fields)
deriving DecidableEq, Repr

/-- Embedding of `RTX.send_order_status` (rtx.py lines 965-967): render the
order and broadcast `order.<permid> <account> <TYPE> <status>` built from
the rendered fields. The alert fallbacks model the KeyError the source
raises when a formatting field is absent. -/
def send_order_status (o : Order) : List BEvent :=
  match render o with
  | some (f, errs) =>
    errs.map (BEvent.alert o.oid) ++
    [match alookup "permid" f, alookup "account" f, alookup "TYPE" f, alookup "status" f with
     | some a, some b, some c, some d =>
       BEvent.wire ("order." ++ a ++ " " ++ b ++ " " ++ c ++ " " ++ d)
     | _, _, _, _ => BEvent.alert o.oid "KeyError in send_order_status"]
  | none => [BEvent.alert o.oid "KeyError in render"]

/-- `API_Order.update` together with its observable effects: the missing
`ORDER_ID` alert, and the `send_order_status` broadcast issued exactly when
the base field map changed. -/
def Order.applyUpdate (o : Order) (data : Fields) (now : Int) : Order × List BEvent :=
  let r := o.update data now
  let evs :=
    (if r.2.1 = RowChange.errorRow then
      [BEvent.alert o.oid "Order Update without ORDER_ID"]
     else []) ++
    (if r.2.2 then send_order_status r.1 else [])
  (r.1, evs)

/-- Embedding of `API_Order.initial_update`: apply the update, then complete
the creation callback, if still attached, with the rendered order, and
detach it. -/
def Order.initial_update (o : Order) (data : Fields) (now : Int) : Order × List BEvent :=
  let r := o.applyUpdate data now
  match r.1.callback with
  | some _ =>
    ({ r.1 with callback := none },
     r.2 ++ [BEvent.complete ((render r.1).map Prod.fst)])
  | none => r

/-- The order-book slice of the `RTX` singleton: live orders keyed by
`ORIGINAL_ORDER_ID` and pending submissions keyed transiently by
`CLIENT_ORDER_ID` (or by the old id for a change). -/
structure Book where
  orders : Dict Order
  pending_orders : Dict Order
deriving DecidableEq, Repr

/-- Shallow embedding of `RTX.handle_order_response` (rtx.py lines 927-953).
The Python truthiness test `if oid:` sends both a missing
`ORIGINAL_ORDER_ID` key and an empty-string value to the error branch,
which reports the error and touches nothing. Otherwise: promote a pending
submission matched by `CLIENT_ORDER_ID`, else promote a pending change
matched by the oid, else update the existing order, else create a fresh
order with empty fields and update it. -/
def handle_order_response (b : Book) (msg : Fields) (now : Int) : Book × List BEvent :=
  let oidOk : Option String :=
    match alookup "ORIGINAL_ORDER_ID" msg with
    | some s => if s = "" then none else some s
    | none => none
  match oidOk with
  | none => (b, [BEvent.alert "RTX" "handle_order_update: ORIGINAL_ORDER_ID not found"])
  | some oid =>
    if b.pending_orders ≠ [] ∧ (alookup "CLIENT_ORDER_ID" msg).isSome then
      let coid := (alookup "CLIENT_ORDER_ID" msg).getD ""
      match alookup coid b.pending_orders with
      | some o =>
        let r := o.initial_update msg now
        ({ orders := alInsert oid r.1 b.orders,
           pending_orders := alErase coid b.pending_orders }, r.2)
      | none => (b, [])
    else if b.pending_orders ≠ [] ∧ (alookup oid b.pending_orders).isSome then
      match alookup oid b.pending_orders with
      | some o =>
        let r := o.initial_update msg now
        ({ b with pending_orders := alErase oid b.pending_orders }, r.2)
      | none => (b, [])
    else
      match alookup oid b.orders with
      | some o =>
        let r := o.applyUpdate msg now
        ({ b with orders := alInsert oid r.1 b.orders }, r.2)
      | none =>
        let o : Order :=
          { oid := oid, fields := [], updates := [], suborders := [], callback := none }
        let r := o.applyUpdate msg now
        ({ b with orders := alInsert oid r.1 b.orders }, r.2)

-- ===== Theorems =====

theorem alookup_alInsert {β : Type} (k k' : String) (v : β) (l : Dict β) :
    alookup k (alInsert k' v l) = if k' = k then some v else alookup k l := by
  induction l with
  | nil => simp [alInsert, alookup]
  | cons h t ih =>
    obtain ⟨k₀, v₀⟩ := h
    by_cases h1 : k₀ = k'
    · subst h1
      by_cases h2 : k₀ = k <;> simp [alInsert, alookup, h2]
    · by_cases h2 : k₀ = k
      · subst h2
        simp [alInsert, alookup, h1, Ne.symm h1]
      · simp [alInsert, alookup, h1, h2, ih]

theorem alInsert_self {β : Type} (k : String) (v : β) (l : Dict β)
    (h : alookup k l = some v) : alInsert k v l = l := by
  induction l with
  | nil => simp [alookup] at h
  | cons hd t ih =>
    obtain ⟨k₀, v₀⟩ := hd
    by_cases h1 : k₀ = k
    · subst h1
      simp [alookup] at h
      simp [alInsert, h]
    · simp [alookup, h1] at h
      simp [alInsert, h1, ih h]

theorem alookup_append {β : Type} (k : String) (f g : Dict β) :
    alookup k (f ++ g) =
      match alookup k f with
      | some v => some v
      | none => alookup k g := by
  induction f with
  | nil => simp [alookup]
  | cons hd t ih =>
    obtain ⟨k₀, v₀⟩ := hd
    by_cases h1 : k₀ = k <;> simp [alookup, h1, ih]

theorem alookup_setdefaultF (k k' v : String) (f : Fields) :
    alookup k' (setdefaultF k v f).1 =
      if k = k' then some ((alookup k f).getD v) else alookup k' f := by
  unfold setdefaultF
  cases hf : alookup k f with
  | some w =>
    by_cases h : k = k'
    · subst h; simp [hf]
    · simp [hf, h]
  | none =>
    by_cases h : k = k'
    · subst h
      simp [hf, alookup_append, alookup]
    · simp [hf, alookup_append, alookup, h]
      cases alookup k' f <;> simp

theorem setdefaultF_snd (k v : String) (f : Fields) :
    (setdefaultF k v f).2 = (alookup k f).getD v := by
  unfold setdefaultF
  cases hf : alookup k f <;> simp [hf]

theorem alookup_copyField (k src dst : String) (f : Fields) (h : k ≠ dst) :
    alookup k (copyField src dst f) = alookup k f := by
  unfold copyField
  cases alookup src f <;> simp [alookup_alInsert, Ne.symm h]

theorem alookup_update_fill_fields (k : String) (g : Fields)
    (hk1 : k ≠ "filled") (hk2 : k ≠ "remaining") (hk3 : k ≠ "avgfillprice") :
    alookup k (update_fill_fields g) = alookup k g := by
  unfold update_fill_fields
  split
  · rw [alookup_copyField _ _ _ _ hk3, alookup_copyField _ _ _ _ hk2,
        alookup_copyField _ _ _ _ hk1]
  · rfl

-- ===== C2 =====

/-- C2: applying `API_Order.update` to a row whose `ORDER_ID` already maps to
an identical stored row classifies the row as a duplicate and leaves the
order — base field map, sub-update list and sub-order table — unchanged,
with no downstream `order.*` event emitted (the emission flag is false, and
`send_order_status` is only called under it). -/
theorem order_update_duplicate_row (o : Order) (data : Fields) (oid' : String)
    (now : Int)
    (h1 : alookup "ORDER_ID" data = some oid')
    (h2 : alookup oid' o.suborders = some data) :
    o.update data now = (o, RowChange.dup, false) := by
  unfold Order.update
  rw [h1]
  simp [h2, alInsert_self _ _ _ h2]

/-- Witness for C2 at a concrete order and row. -/
theorem order_update_duplicate_row_witness :
    alookup "ORDER_ID" [("ORDER_ID", "S1"), ("CURRENT_STATUS", "LIVE")] = some "S1" ∧
    Order.update
      { oid := "O3", fields := [("X", "1")], updates := [],
        suborders := [("S1", [("ORDER_ID", "S1"), ("CURRENT_STATUS", "LIVE")])],
        callback := none }
      [("ORDER_ID", "S1"), ("CURRENT_STATUS", "LIVE")] 5 =
      ({ oid := "O3", fields := [("X", "1")], updates := [],
         suborders := [("S1", [("ORDER_ID", "S1"), ("CURRENT_STATUS", "LIVE")])],
         callback := none }, RowChange.dup, false) :=
  ⟨by decide, order_update_duplicate_row _ _ "S1" 5 (by decide) (by decide)⟩

-- ===== C5 =====

/-- C5: submitting a `stoplimit` order with a known account and a valid
route does not build the `StopLimit` field map; line 1227 of the source
compares the Python builtin `type` (not `order_type`) with the string, so
the branch is dead and the call raises `unknown order type: stoplimit`. -/
theorem submit_stoplimit_raises :
    submit_order ["A.B.C.D"] "A.B.C.D" "DEMO" none "stoplimit" 1250 1225 "XYZ"
        100 [] none none "uuid-1" =
      SubmitResult.raised "unknown order type: stoplimit" := by decide

-- ===== C6 =====

/-- C6 counterexample: a submission with quantity exactly 0 (known account,
valid route) carries `BUYORSELL = Sell`, not `Buy` as the claim states for
all quantities greater than or equal to zero; the source tests
`quantity > 0`. -/
theorem submit_zero_quantity_sells :
    ((submit_order ["A.B.C.D"] "A.B.C.D" "DEMO" none "market" 0 0 "XYZ" 0 []
        none none "u").fields?.bind (alookup "BUYORSELL")) = some (PVal.s "Sell") ∧
    ((submit_order ["A.B.C.D"] "A.B.C.D" "DEMO" none "market" 0 0 "XYZ" 0 []
        none none "u").fields?.bind (alookup "BUYORSELL")) ≠ some (PVal.s "Buy") := by
  decide

-- ===== C7 =====

/-- C7: cancelling an unknown order completes immediately with the synthetic
`Order not found` payload; but an already-cancelled order does not complete
immediately: its rendered status is the string `Cancelled` (also shown here
for a `COMPLETED`/`UserSubmitCancel` order), while `cancel_order` compares
against the spelling `Canceled`, so the dead already-cancelled branch is
skipped and a `UserSubmitCancel` poke goes upstream anyway. -/
theorem cancel_order_unknown_and_cancelled :
    cancel_order [] "O9" =
      CancelResult.immediate
        [("status", "Error"), ("errorMsg", "Order not found"), ("id", "O9")] ∧
    cancel_order
      [("O1", { oid := "O1", fields := [("status", "Cancelled")], updates := [],
                suborders := [], callback := none })] "O1" =
      CancelResult.upstream "TYPE=UserSubmitCancel,REFERS_TO_ID=O1" ∧
    (render
      { oid := "O1",
        fields := [("ORIGINAL_ORDER_ID", "O1"), ("DISP_NAME", "XYZ"), ("BANK", "B"),
                   ("BRANCH", "R"), ("CUSTOMER", "C"), ("DEPOSIT", "D"),
                   ("CURRENT_STATUS", "COMPLETED"), ("TYPE", "UserSubmitCancel")],
        updates := [], suborders := [], callback := none }).map
        (fun p => alookup "status" p.1) = some (some "Cancelled") := by
  refine ⟨by decide, by decide, by decide⟩

-- ===== C8 =====

/-- The LIVEQUOTE advise row of the duplicate-suppression scenario. -/
def c8row : Fields := [("BID", "10.00"), ("BIDSIZE", "5"), ("ASK", "10.02"), ("ASKSIZE", "7")]

/-- C8: with the ticker enabled, delivering the identical LIVEQUOTE row
twice emits exactly one quote string, but that string is
`quote.XYZ:10.0 0 10.02 0`, not `quote.XYZ:10.00 5 10.02 7`: the sizes stay
0 because `parse_fields` assigns the attributes `bidsize`/`asksize` while
`update_quote` reads the distinct attributes `bid_size`/`ask_size`, and
Python renders the float 10.00 as `10.0`. -/
theorem livequote_duplicate_row_emission :
    (let r1 := TSym.parse_fields true { symbol := "XYZ" } (some c8row)
     let r2 := TSym.parse_fields true r1.1 (some c8row)
     r1.2.1 ++ r2.2.1) = ["quote.XYZ:10.0 0 10.02 0"] := by decide

-- ===== C9 =====

/-- C9: a row without `ORIGINAL_ORDER_ID` makes `handle_order_response`
report the error and leave the book — orders and pending orders — entirely
unchanged. -/
theorem handle_order_response_missing_oid (b : Book) (msg : Fields) (now : Int)
    (h : alookup "ORIGINAL_ORDER_ID" msg = none) :
    handle_order_response b msg now =
      (b, [BEvent.alert "RTX" "handle_order_update: ORIGINAL_ORDER_ID not found"]) := by
  unfold handle_order_response
  rw [h]

/-- Witness for C9 at a concrete book and row. -/
theorem handle_order_response_missing_oid_witness :
    alookup "ORIGINAL_ORDER_ID" [("TYPE", "UserSubmitOrder")] = none ∧
    handle_order_response { orders := [], pending_orders := [] }
        [("TYPE", "UserSubmitOrder")] 0 =
      ({ orders := [], pending_orders := [] },
       [BEvent.alert "RTX" "handle_order_update: ORIGINAL_ORDER_ID not found"]) :=
  ⟨by decide, handle_order_response_missing_oid _ _ 0 (by decide)⟩

-- ===== C10 =====

/-- C10: a callback constructed with the 0 default timeout argument stores
the configured DEFAULT as its `timeout` attribute, yet its deadline is
`started + 0`, so any sweep strictly after creation expires it (the
continuation is fired with the error); `set_account` allocates exactly such
a callback. -/
theorem callback_zero_timeout_expiry (id label acct : String)
    (defT started now : Int) (b bs : Bool) (h : started < now) :
    (CB.init id label 0 defT started b).timeout = defT ∧
    (CB.init id label 0 defT started b).expire = started ∧
    ((CB.init id label 0 defT started b).check_expire now).2.1 = true ∧
    set_account_callback acct defT started bs =
      CB.init acct "set-account" 0 defT started bs := by
  refine ⟨by simp [CB.init], by simp [CB.init], ?_, rfl⟩
  simp [CB.init, CB.check_expire, h]

/-- Witness for C10 at concrete times. -/
theorem callback_zero_timeout_expiry_witness :
    (10 : Int) < 11 ∧
    ((CB.init "a" "set-account" 0 7 10 false).timeout = 7 ∧
     (CB.init "a" "set-account" 0 7 10 false).expire = 10 ∧
     ((CB.init "a" "set-account" 0 7 10 false).check_expire 11).2.1 = true ∧
     set_account_callback "a" 7 10 false = CB.init "a" "set-account" 0 7 10 false) :=
  ⟨by decide, callback_zero_timeout_expiry "a" "set-account" "a" 7 10 11 false false (by decide)⟩

-- ===== C3 =====

theorem cbStep_done (cb : CB) (op : CBOp) (h : cb.done = true) :
    cbStep cb op = (cb, false) := by
  cases op with
  | completeAt now => simp [cbStep, CB.complete, h]
  | checkAt now => simp [cbStep, CB.check_expire, h]

theorem cbStep_fire_done (cb : CB) (op : CBOp)
    (h : (cbStep cb op).2 = true) : (cbStep cb op).1.done = true := by
  cases op with
  | completeAt now =>
    by_cases hd : cb.done = true
    · simp [cbStep, CB.complete, hd] at h
    · simp [cbStep, CB.complete, hd]
  | checkAt now =>
    by_cases hd : cb.done = true
    · simp [cbStep, CB.check_expire, hd] at h
    · by_cases ht : now > cb.expire
      · simp [cbStep, CB.check_expire, hd, ht]
      · simp [cbStep, CB.check_expire, hd, ht] at h

theorem fireCount_done (cb : CB) (ops : List CBOp) (h : cb.done = true) :
    fireCount cb ops = 0 := by
  induction ops generalizing cb with
  | nil => rfl
  | cons op ops ih =>
    rw [fireCount]
    rw [cbStep_done cb op h]
    simp [ih cb h]

/-- C3: the continuation wrapped by an `API_Callback` fires at most once
across completions and expiry sweeps: a `complete` on a done callback only
logs the post-timeout arrival (and records metrics) without invoking the
continuation and without changing the state, a `check_expire` on a done
callback is a no-op, and over any sequence of completion or expiry
operations at most one fires the continuation. -/
theorem callback_single_shot :
    (∀ (cb : CB) (now : Int), cb.done = true →
      cb.complete now =
        (cb, false, [CBEvent.lateArrival cb.label,
                     CBEvent.metrics cb.label (now - cb.started) cb.expired])) ∧
    (∀ (cb : CB) (now : Int), cb.done = true →
      cb.check_expire now = (cb, false, [])) ∧
    (∀ (cb : CB) (ops : List CBOp), fireCount cb ops ≤ 1) := by
  refine ⟨fun cb now h => by simp [CB.complete, h],
          fun cb now h => by simp [CB.check_expire, h],
          fun cb ops => ?_⟩
  induction ops generalizing cb with
  | nil => simp [fireCount]
  | cons op ops ih =>
    rw [fireCount]
    cases hf : (cbStep cb op).2 with
    | false => simpa [hf] using ih (cbStep cb op).1
    | true =>
      have hd := cbStep_fire_done cb op hf
      simp [hf, fireCount_done _ _ hd]

/-- Witness for C3: a completed callback neither re-fires on a second
completion nor on an expiry sweep, and a two-completion trace fires once. -/
theorem callback_single_shot_witness :
    (CB.init "i" "l" 0 7 10 false).done = false ∧
    ({ CB.init "i" "l" 0 7 10 false with done := true }).complete 12 =
      ({ CB.init "i" "l" 0 7 10 false with done := true }, false,
       [CBEvent.lateArrival "l", CBEvent.metrics "l" 2 false]) ∧
    ({ CB.init "i" "l" 0 7 10 false with done := true }).check_expire 12 =
      ({ CB.init "i" "l" 0 7 10 false with done := true }, false, []) ∧
    fireCount (CB.init "i" "l" 0 7 10 false)
      [CBOp.completeAt 11, CBOp.completeAt 12, CBOp.checkAt 13] ≤ 1 :=
  ⟨by decide,
   callback_single_shot.1 _ 12 (by decide),
   callback_single_shot.2.1 _ 12 (by decide),
   callback_single_shot.2.2 _ _⟩

-- ===== C4 =====

/-- C4: on a channel that is not ready, a first send stores its full
argument tuple in `on_connect_action` and returns success, while a second
send finding the slot occupied reports an error and returns failure without
overwriting the stored action; when the expected `OnInitAck` status frame
with status `1` is processed, the stored action is replayed as a send (its
command goes out on the gateway) and `on_connect_action` is cleared. -/
theorem cxn_preconnect_queueing :
    (∀ (c : Cxn) (a : SendArgs), c.ready = false → c.on_connect_action = none →
      c.send a = ({ c with on_connect_action := some a }, some true,
        [CxnEvent.note ("storing on_connect_action (" ++ a.cmd ++ ")")])) ∧
    (∀ (c : Cxn) (a act : SendArgs), c.ready = false → c.on_connect_action = some act →
      c.send a = (c, some false,
        [CxnEvent.alert c.id ("Failure: on_connect_action already exists: " ++ act.cmd)])) ∧
    (∀ (c : Cxn) (act : SendArgs),
      c.status_pending = some "OnInitAck" → c.on_connect_action = some act →
      (c.handle_status "OnInitAck" "1").1.on_connect_action = none ∧
      CxnEvent.gateway (act.cmd ++ " " ++ c.id ++ " " ++ act.args) ∈
        (c.handle_status "OnInitAck" "1").2) := by
  refine ⟨fun c a h1 h2 => by simp [Cxn.send, h1, h2],
          fun c a act h1 h2 => by simp [Cxn.send, h1, h2],
          fun c act h1 h2 => ?_⟩
  unfold Cxn.handle_status
  rw [h1]
  cases hu : c.update_handler <;>
    simp [hu, h2, Cxn.send] <;>
    cases hreq : pyContains "request" act.cmd <;>
    cases hcb : act.cb_status <;>
    simp [hreq, hcb]

/-- A channel in the shape the source constructor leaves it: not ready,
awaiting `OnInitAck`, no deferred action. -/
def c4chan : Cxn where
  id := "c1"
  service := "TA_SRV"
  topic := "LIVEQUOTE"
  ack_pending := some "CONNECTION PENDING"
  ack_callback := none
  response_pending := false
  response_callback := none
  response_rows := none
  status_pending := some "OnInitAck"
  status_callback := none
  update_callback := none
  update_handler := none
  connected := false
  ready := false
  on_connect_action := none

/-- A request issued before the channel connected. -/
def c4act : SendArgs where
  cmd := "request"
  args := "LIVEQUOTE;*;1"
  ex_ack := some "REQUEST_OK"
  ex_response := true
  cb_response := some 7

/-- The same channel with the deferred action already occupied. -/
def c4chan2 : Cxn := { c4chan with on_connect_action := some c4act }

/-- Witness for C4 at the concrete pre-connect channel. -/
theorem cxn_preconnect_queueing_witness :
    c4chan.ready = false ∧ c4chan.on_connect_action = none ∧
    c4chan2.ready = false ∧ c4chan2.on_connect_action = some c4act ∧
    c4chan2.status_pending = some "OnInitAck" ∧
    c4chan.send c4act = ({ c4chan with on_connect_action := some c4act }, some true,
      [CxnEvent.note ("storing on_connect_action (" ++ c4act.cmd ++ ")")]) ∧
    c4chan2.send c4act = (c4chan2, some false,
      [CxnEvent.alert c4chan2.id
        ("Failure: on_connect_action already exists: " ++ c4act.cmd)]) ∧
    (c4chan2.handle_status "OnInitAck" "1").1.on_connect_action = none ∧
    CxnEvent.gateway (c4act.cmd ++ " " ++ c4chan2.id ++ " " ++ c4act.args) ∈
      (c4chan2.handle_status "OnInitAck" "1").2 :=
  ⟨rfl, rfl, rfl, rfl, rfl,
   cxn_preconnect_queueing.1 c4chan c4act rfl rfl,
   cxn_preconnect_queueing.2.1 c4chan2 c4act c4act rfl rfl,
   (cxn_preconnect_queueing.2.2 c4chan2 c4act rfl rfl).1,
   (cxn_preconnect_queueing.2.2 c4chan2 c4act rfl rfl).2⟩

-- ===== C1 =====

set_option maxHeartbeats 2000000 in
/-- C1 (amended): render derives the `status` field from `CURRENT_STATUS`
and `TYPE` exactly as the claim tabulates, with one correction: at
`CURRENT_STATUS = COMPLETED` the error report accompanies only a TYPE
outside the ten recognised values (ClerkReject and ExchangeKillOrder yield
`Error` without a report), and an unrecognised `CURRENT_STATUS` yields
`Error` with a report. -/
theorem render_status_derivation (o : Order) (fOut : Fields) (errs : List String)
    (h : render o = some (fOut, errs)) :
    alookup "status" fOut = claimStatus o ∧
    (claimErrorReported o = false ↔ errs = []) := by
  unfold render at h
  split at h
  · exact absurd h (by simp)
  next pid hpid =>
  split at h
  · exact absurd h (by simp)
  next sym hsym =>
  split at h
  · exact absurd h (by simp)
  next acct hacct =>
  simp only [] at h
  set f3 := alInsert "account" acct (alInsert "symbol" sym (alInsert "permid" pid o.fields)) with hf3
  have hCS3 : alookup "CURRENT_STATUS" f3 = alookup "CURRENT_STATUS" o.fields := by
    simp [hf3, alookup_alInsert]
  have hTY3 : alookup "TYPE" f3 = alookup "TYPE" o.fields := by
    simp [hf3, alookup_alInsert]
  have hOV3 : alookup "ORIGINAL_VOLUME" f3 = alookup "ORIGINAL_VOLUME" o.fields := by
    simp [hf3, alookup_alInsert]
  have hVT3 : alookup "VOLUME_TRADED" f3 = alookup "VOLUME_TRADED" o.fields := by
    simp [hf3, alookup_alInsert]
  have hst3 : alookup "status" f3 = alookup "status" o.fields := by
    simp [hf3, alookup_alInsert]
  set f := (setdefaultF "TYPE" "Undefined" (setdefaultF "CURRENT_STATUS" "UNDEFINED" f3).1).1 with hf
  have hst : (setdefaultF "CURRENT_STATUS" "UNDEFINED" f3).2 = effCurrentStatus o := by
    rw [setdefaultF_snd, hCS3]; rfl
  have hot : (setdefaultF "TYPE" "Undefined" (setdefaultF "CURRENT_STATUS" "UNDEFINED" f3).1).2
      = effType o := by
    rw [setdefaultF_snd, alookup_setdefaultF]
    simp [hTY3]; rfl
  have hfCS : alookup "CURRENT_STATUS" f = some (effCurrentStatus o) := by
    rw [hf, alookup_setdefaultF]
    simp
    rw [alookup_setdefaultF]
    simp [hCS3]; rfl
  have hfTY : alookup "TYPE" f = some (effType o) := by
    rw [hf, alookup_setdefaultF]
    simp
    rw [alookup_setdefaultF]
    simp [hTY3]; rfl
  have hfOV : alookup "ORIGINAL_VOLUME" f = alookup "ORIGINAL_VOLUME" o.fields := by
    rw [hf, alookup_setdefaultF]
    simp
    rw [alookup_setdefaultF]
    simp [hOV3]
  have hfVT : alookup "VOLUME_TRADED" f = alookup "VOLUME_TRADED" o.fields := by
    rw [hf, alookup_setdefaultF]
    simp
    rw [alookup_setdefaultF]
    simp [hVT3]
  have hfst : alookup "status" f = alookup "status" o.fields := by
    rw [hf, alookup_setdefaultF]
    simp
    rw [alookup_setdefaultF]
    simp [hst3]
  have hIF : is_filled f o.updates = claimFullyFilled o := by
    unfold is_filled claimFullyFilled has_fill_type
    rw [hfCS, hfTY, hfOV, hfVT]
    simp
  rw [hst, hot] at h
  clear_value f3 f
  clear hf3 hf hpid hsym hacct
  split_ifs at h <;>
    simp only [Option.some.injEq, Prod.mk.injEq] at h <;>
    obtain ⟨rfl, rfl⟩ := h <;>
    simp_all [claimStatus, claimErrorReported, knownCompletedType, knownCurrentStatus,
              alookup_alInsert, alookup_update_fill_fields] <;>
    tauto

/-- A completed ClerkReject order with all render-required fields. -/
def c1order : Order where
  oid := "O1"
  fields := [("ORIGINAL_ORDER_ID", "O1"), ("DISP_NAME", "XYZ"), ("BANK", "B"),
             ("BRANCH", "R"), ("CUSTOMER", "C"), ("DEPOSIT", "D"),
             ("CURRENT_STATUS", "COMPLETED"), ("TYPE", "ClerkReject")]
  updates := []
  suborders := []

/-- C1 counterexample: for a `COMPLETED` order of TYPE `ClerkReject`, render
derives `status = Error` but reports no error, against the claim that the
Error for ClerkReject comes with an error report. -/
theorem render_clerkreject_no_report :
    (render c1order).map (fun p => (alookup "status" p.1, p.2)) =
      some (some "Error", []) := by decide

/-- A pending order with all render-required fields. -/
def c1wOrder : Order where
  oid := "O2"
  fields := [("ORIGINAL_ORDER_ID", "O2"), ("DISP_NAME", "XYZ"), ("BANK", "B"),
             ("BRANCH", "R"), ("CUSTOMER", "C"), ("DEPOSIT", "D"),
             ("CURRENT_STATUS", "PENDING"), ("TYPE", "UserSubmitOrder")]
  updates := []
  suborders := []

/-- The field map render produces for `c1wOrder`. -/
def c1wFields : Fields :=
  [("ORIGINAL_ORDER_ID", "O2"), ("DISP_NAME", "XYZ"), ("BANK", "B"), ("BRANCH", "R"),
   ("CUSTOMER", "C"), ("DEPOSIT", "D"), ("CURRENT_STATUS", "PENDING"),
   ("TYPE", "UserSubmitOrder"), ("permid", "O2"), ("symbol", "XYZ"),
   ("account", "B.R.C.D"), ("status", "Submitted")]

/-- Witness for C1 at a concrete pending order. -/
theorem render_status_derivation_witness :
    render c1wOrder = some (c1wFields, []) ∧
    (alookup "status" c1wFields = claimStatus c1wOrder ∧
     (claimErrorReported c1wOrder = false ↔ ([] : List String) = [])) :=
  ⟨by decide, render_status_derivation c1wOrder c1wFields [] (by decide)⟩

/-- C6 (amended): for every accepted submission — known account, valid
single-entry route carrying no extra parameters, recognised order type —
the submitted `BUYORSELL` field is `Buy` when the quantity is strictly
positive and `Sell` otherwise; in particular a quantity of exactly zero
yields `Sell`. -/
theorem submit_buyorsell_sign (accounts : List String)
    (account routeName symbol new_oid order_type : String)
    (price stop_price quantity : Int) (pem : Dict String)
    (staged oid : Option String)
    (hacc : account ∈ accounts)
    (hlen : ¬ (pySplitDot account).length < 4)
    (htype : order_type = "market" ∨ order_type = "limit" ∨ order_type = "stop") :
    (submit_order accounts account routeName none order_type price stop_price symbol
        quantity pem staged oid new_oid).fields?.bind (alookup "BUYORSELL") =
      some (PVal.s (if 0 < quantity then "Buy" else "Sell")) := by
  unfold submit_order
  rcases htype with h|h|h <;> subst h <;>
    cases staged <;> cases oid <;>
    simp [SubmitResult.fields?, alookup_alInsert, hacc, hlen]

/-- Witness for C6 (amended) at a concrete negative quantity. -/
theorem submit_buyorsell_sign_witness :
    "A.B.C.D" ∈ ["A.B.C.D"] ∧
    ¬ (pySplitDot "A.B.C.D").length < 4 ∧
    (submit_order ["A.B.C.D"] "A.B.C.D" "DEMO" none "market" 0 0 "XYZ" (-3) []
        none none "u").fields?.bind (alookup "BUYORSELL") =
      some (PVal.s (if (0 : Int) < -3 then "Buy" else "Sell")) :=
  ⟨by decide, by decide,
   submit_buyorsell_sign ["A.B.C.D"] "A.B.C.D" "DEMO" "XYZ" "u" "market" 0 0 (-3) []
     none none (by decide) (by decide) (Or.inl rfl)⟩
